import Mathlib

/-!
Verification of the interview analysis and persistence pipeline of the
TrueChanceAI repository (`src/components/Agent.tsx` and route handlers).

The TypeScript source is shallowly embedded: pure functions become Lean
functions; the stateful save-interview endpoint becomes an explicit
store-passing function; JavaScript numbers used for word timings become
rationals; outcomes of external HTTP calls become explicit oracle inputs.
-/

namespace TrueChance

/-! ## Word-timing data and the pause analyzer

Embedding of `analyzePauses` (Agent.tsx lines 278-290):

```ts
function analyzePauses(words: {word; start; end}[], threshold = 1.5) {
  let pauses = [];
  for (let i = 1; i < words.length; i++) {
    const gap = words[i].start - words[i - 1].end;
    if (gap > threshold) {
      pauses.push({ from: words[i - 1].word, to: words[i].word, gap });
    }
  }
  return pauses;
}
```
-/

/-- One timed word `(word, start, end)` from the transcript message artifacts. -/
structure Word where
  word : String
  start : ℚ
  «end» : ℚ
  deriving Repr, DecidableEq

/-- One detected pause `{from, to, gap}` as pushed by `analyzePauses`. -/
structure Pause where
  «from» : String
  «to» : String
  gap : ℚ
  deriving Repr, DecidableEq

/-- The function `analyzePauses` translated from the source: the loop walks adjacent pairs
in order, pushing a record whenever the gap strictly exceeds the threshold. -/
def analyzePauses : List Word → ℚ → List Pause
  | w0 :: w1 :: rest, threshold =>
      let gap := w1.start - w0.«end»
      (if gap > threshold then [⟨w0.word, w1.word, gap⟩] else []) ++
        analyzePauses (w1 :: rest) threshold
  | _, _ => []

/-- Specification-side description of the record produced at index `i`
(`1 ≤ i < length`): the gap `w[i].start - w[i-1].end` when it strictly
exceeds the threshold, nothing otherwise. -/
def pauseAt (ws : List Word) (t : ℚ) (i : Nat) : Option Pause :=
  match ws[i-1]?, ws[i]? with
  | some a, some b =>
      if b.start - a.«end» > t then some ⟨a.word, b.word, b.start - a.«end»⟩ else none
  | _, _ => none

theorem pauseAt_cons (w0 : Word) (tl : List Word) (t : ℚ) (i : Nat) (h : 1 ≤ i) :
    pauseAt (w0 :: tl) t (i + 1) = pauseAt tl t i := by
  obtain ⟨j, rfl⟩ : ∃ j, i = j + 1 := ⟨i - 1, by omega⟩
  simp [pauseAt]

theorem filterMap_pauseAt_shift (w0 : Word) (tl : List Word) (t : ℚ) (n : Nat) :
    (List.range' 2 n).filterMap (pauseAt (w0 :: tl) t) =
      (List.range' 1 n).filterMap (pauseAt tl t) := by
  rw [List.range'_eq_map_range, List.range'_eq_map_range,
    List.filterMap_map, List.filterMap_map]
  congr 1
  funext i
  show pauseAt (w0 :: tl) t (2 + i) = pauseAt tl t (1 + i)
  have h2 : 2 + i = (1 + i) + 1 := by omega
  rw [h2, pauseAt_cons w0 tl t (1 + i) (by omega)]

theorem analyzePauses_eq_filterMap (ws : List Word) (t : ℚ) :
    analyzePauses ws t = (List.range' 1 (ws.length - 1)).filterMap (pauseAt ws t) := by
  induction ws with
  | nil => rfl
  | cons w0 tl ih =>
    cases tl with
    | nil => rfl
    | cons w1 rest =>
      have hlen : (w0 :: w1 :: rest).length - 1 = rest.length + 1 := by simp
      rw [hlen, List.range'_succ, List.filterMap_cons]
      have h1 : pauseAt (w0 :: w1 :: rest) t 1 =
          (if w1.start - w0.«end» > t then
            some ⟨w0.word, w1.word, w1.start - w0.«end»⟩ else none) := by
        simp [pauseAt]
      have htail : (List.range' 2 (rest.length)).filterMap (pauseAt (w0 :: w1 :: rest) t) =
          analyzePauses (w1 :: rest) t := by
        rw [filterMap_pauseAt_shift, ih]
        simp
      by_cases hgap : w1.start - w0.«end» > t
      · rw [h1, if_pos hgap, htail]
        show (if w1.start - w0.«end» > t then _ else _) ++ _ = _
        rw [if_pos hgap]
        rfl
      · rw [h1, if_neg hgap, htail]
        show (if w1.start - w0.«end» > t then _ else _) ++ _ = _
        rw [if_neg hgap]
        rfl

/-- C1: for every word sequence `ws` and threshold `t`, `analyzePauses`
returns exactly the records `{from := ws[i-1].word, to := ws[i].word,
gap := ws[i].start - ws[i-1].end}` for the indices `i` from 1 to
`length - 1` whose gap strictly exceeds `t`, in increasing index order;
the empty and the single-word sequence yield `[]`.  Totality holds by
construction (the embedding is a total function). -/
theorem C1_analyzePauses_spec (ws : List Word) (t : ℚ) :
    analyzePauses ws t = (List.range' 1 (ws.length - 1)).filterMap (pauseAt ws t) ∧
    analyzePauses [] t = [] ∧ ∀ w : Word, analyzePauses [w] t = [] :=
  ⟨analyzePauses_eq_filterMap ws t, rfl, fun _ => rfl⟩

/-! ## JavaScript values

The tone and feedback endpoints reply with loosely-typed JSON; the client
code branches on `typeof`.  `JSVal` models the JavaScript values that flow
through those branches; `JSON.parse` is modelled by an explicit parse
function `String → Option JSVal` (`none` = the parse throws), over which all
theorems are parametric. -/

inductive JSVal where
  | jundefined
  | jnull
  | jbool (b : Bool)
  | jnum (n : Int)
  | jstr (s : String)
  | jobj (fields : List (String × JSVal))
  | jarr (elems : List JSVal)

/-- JavaScript property access `v.k`: accessing a property of `null` or
`undefined` throws a TypeError, modelled by `Except.error`; on any other
receiver the access returns normally — the property's value on an object,
`undefined` on a missing key or a primitive receiver. -/
def JSVal.getFieldE : JSVal → String → Except Unit JSVal
  | .jnull, _ => .error ()
  | .jundefined, _ => .error ()
  | .jobj fields, k => .ok ((fields.lookup k).getD .jundefined)
  | _, _ => .ok .jundefined

/-- JavaScript `typeof v === "object"` (true for objects, arrays and `null`). -/
def JSVal.typeofObject : JSVal → Bool
  | .jnull | .jobj _ | .jarr _ => true
  | _ => false

def JSVal.isStr : JSVal → Bool
  | .jstr _ => true
  | _ => false

def JSVal.isNull : JSVal → Bool
  | .jnull => true
  | _ => false

def JSVal.isArr : JSVal → Bool
  | .jarr _ => true
  | _ => false

/-- A structured (plain) object. -/
def JSVal.isStructuredObj : JSVal → Bool
  | .jobj _ => true
  | _ => false

/-- JavaScript string length of a string value (0 otherwise; the code only
reads `.length` after confirming the value is a string or short-circuiting). -/
def JSVal.strLength : JSVal → Nat
  | .jstr s => s.length
  | _ => 0

/-- JavaScript truthiness. -/
def jsTruthy : JSVal → Bool
  | .jundefined | .jnull => false
  | .jbool b => b
  | .jnum n => n != 0
  | .jstr s => s != ""
  | .jobj _ | .jarr _ => true

/-! ## Tone classifier client

Embedding of `analyzeTone` (Agent.tsx lines 293-333).  The whole body is
wrapped in `try/catch` returning the failure sentinel, so a transport
rejection or a body that fails `res.json()` both land on the sentinel.
Outcomes of the single HTTP call are an explicit input. -/

inductive FetchOutcome where
  | reject                                -- fetch / getToken rejects (transport failure)
  | resp (ok : Bool) (body : Option JSVal) -- response arrived; `none` body = res.json() rejects

/-- The string cleaning of lines 309-319: strip a leading fenced-code marker
(optionally tagged `json`, case-insensitively) and a trailing fence, then a
leading bare `json` prefix, trimming in between. -/
def cleanToneString (s0 : String) : String :=
  let str := s0.trim
  let str :=
    if str.startsWith "```" then
      let str1 := if str.toLower.startsWith "```json" then str.drop 7 else str.drop 3
      let str2 := if str1.endsWith "```" then str1.dropRight 3 else str1
      str2.trim
    else str
  if str.toLower.startsWith "json" then (str.drop 4).trim else str

/-- Normalization of the reply's `tone` field (lines 306-329): objects (in
the `typeof` sense) pass through; strings are cleaned and parsed, keeping the
parse result only when it is a non-null object; anything else yields the
"no tone detected" sentinel. -/
def normalizeToneField (parse : String → Option JSVal) (tone : JSVal) : JSVal :=
  if tone.typeofObject then tone
  else
    match tone with
    | .jstr s =>
        let str := cleanToneString s
        match parse str with
        | some parsed =>
            if parsed.typeofObject && !parsed.isNull then parsed else .jstr str
        | none => .jstr str
    | _ => .jstr "No tone detected."

/-- The function `analyzeTone` translated from the source.  The `data.tone`
access on a `null` (or `undefined`) body throws a TypeError, which the
surrounding catch turns into the failure sentinel. -/
def analyzeTone (parse : String → Option JSVal) (o : FetchOutcome) : JSVal :=
  match o with
  | .reject => .jstr "Could not analyze tone."
  | .resp ok body =>
      if !ok then .jstr "Could not analyze tone."
      else
        match body with
        | none => .jstr "Could not analyze tone."
        | some data =>
            match data.getFieldE "tone" with
            | .error _ => .jstr "Could not analyze tone."
            | .ok tone => normalizeToneField parse tone

theorem normalizeToneField_obj_or_str (parse : String → Option JSVal) (v : JSVal) :
    (normalizeToneField parse v).typeofObject = true ∨
      ∃ s, normalizeToneField parse v = .jstr s := by
  cases v with
  | jstr s =>
      have hform : normalizeToneField parse (.jstr s) =
          (match parse (cleanToneString s) with
           | some parsed =>
               if parsed.typeofObject && !parsed.isNull then parsed
               else .jstr (cleanToneString s)
           | none => .jstr (cleanToneString s)) := rfl
      rw [hform]
      cases hp : parse (cleanToneString s) with
      | none => exact Or.inr ⟨cleanToneString s, rfl⟩
      | some parsed =>
          by_cases hc : (parsed.typeofObject && !parsed.isNull) = true
          · refine Or.inl ?_
            show (if parsed.typeofObject && !parsed.isNull then parsed
                  else JSVal.jstr (cleanToneString s)).typeofObject = true
            rw [if_pos hc]
            exact ((Bool.and_eq_true _ _).mp hc).1
          · refine Or.inr ⟨cleanToneString s, ?_⟩
            show (if parsed.typeofObject && !parsed.isNull then parsed
                  else JSVal.jstr (cleanToneString s)) = JSVal.jstr (cleanToneString s)
            rw [if_neg hc]
  | jnull => exact Or.inl rfl
  | jobj fields => exact Or.inl rfl
  | jarr elems => exact Or.inl rfl
  | jundefined => exact Or.inr ⟨"No tone detected.", rfl⟩
  | jbool b => exact Or.inr ⟨"No tone detected.", rfl⟩
  | jnum n => exact Or.inr ⟨"No tone detected.", rfl⟩

/-- C5: the tone classifier normalization never raises: on transport failure,
non-success status, or an unreadable body it returns the fixed failure
sentinel; a `null`/`undefined` body, whose `data.tone` access throws a
TypeError, also lands on the failure sentinel via the catch; on a reply whose
`tone` field reads successfully and is neither an object (in the `typeof`
sense) nor a string it returns the fixed "no tone detected" sentinel; and
every branch returns a value (object, string, or sentinel string).  Totality
holds by construction (the embedding is a total function covering every
outcome). -/
theorem C5_analyzeTone_sentinels (parse : String → Option JSVal) (o : FetchOutcome) :
    (o = .reject → analyzeTone parse o = .jstr "Could not analyze tone.") ∧
    (∀ body, o = .resp false body → analyzeTone parse o = .jstr "Could not analyze tone.") ∧
    (o = .resp true none → analyzeTone parse o = .jstr "Could not analyze tone.") ∧
    (∀ data : JSVal, o = .resp true (some data) →
      data.getFieldE "tone" = .error () →
      analyzeTone parse o = .jstr "Could not analyze tone.") ∧
    (∀ data tone : JSVal, o = .resp true (some data) →
      data.getFieldE "tone" = .ok tone →
      tone.typeofObject = false → tone.isStr = false →
      analyzeTone parse o = .jstr "No tone detected.") ∧
    ((analyzeTone parse o).typeofObject = true ∨ ∃ s, analyzeTone parse o = .jstr s) := by
  refine ⟨?_, ?_, ?_, ?_, ?_, ?_⟩
  · rintro rfl; rfl
  · rintro body rfl; rfl
  · rintro rfl; rfl
  · rintro data rfl herr
    show (match data.getFieldE "tone" with
          | .error _ => JSVal.jstr "Could not analyze tone."
          | .ok tone => normalizeToneField parse tone) = .jstr "Could not analyze tone."
    rw [herr]
  · rintro data tone rfl hok hobj hstr
    show (match data.getFieldE "tone" with
          | .error _ => JSVal.jstr "Could not analyze tone."
          | .ok tone => normalizeToneField parse tone) = .jstr "No tone detected."
    rw [hok]
    show normalizeToneField parse tone = .jstr "No tone detected."
    cases tone with
    | jstr s => simp [JSVal.isStr] at hstr
    | jundefined => rfl
    | jnull => simp [JSVal.typeofObject] at hobj
    | jbool b => rfl
    | jnum n => rfl
    | jobj fields => simp [JSVal.typeofObject] at hobj
    | jarr elems => simp [JSVal.typeofObject] at hobj
  · cases o with
    | reject => exact Or.inr ⟨"Could not analyze tone.", rfl⟩
    | resp ok body =>
        cases ok with
        | false => exact Or.inr ⟨"Could not analyze tone.", rfl⟩
        | true =>
            cases body with
            | none => exact Or.inr ⟨"Could not analyze tone.", rfl⟩
            | some data =>
                cases hfe : data.getFieldE "tone" with
                | error u =>
                    refine Or.inr ⟨"Could not analyze tone.", ?_⟩
                    show (match data.getFieldE "tone" with
                          | .error _ => JSVal.jstr "Could not analyze tone."
                          | .ok tone => normalizeToneField parse tone) =
                      .jstr "Could not analyze tone."
                    rw [hfe]
                | ok tone =>
                    have := normalizeToneField_obj_or_str parse tone
                    show ((match data.getFieldE "tone" with
                          | .error _ => JSVal.jstr "Could not analyze tone."
                          | .ok tone => normalizeToneField parse tone)).typeofObject =
                        true ∨ ∃ s, (match data.getFieldE "tone" with
                          | .error _ => JSVal.jstr "Could not analyze tone."
                          | .ok tone => normalizeToneField parse tone) = .jstr s
                    rw [hfe]
                    exact this

/-- Witness for C5: a reply whose `tone` field reads as the number 3
(neither object nor string) yields the "no tone detected" sentinel. -/
theorem C5_witness :
    analyzeTone (fun _ => none) (.resp true (some (.jobj [("tone", .jnum 3)]))) =
      .jstr "No tone detected." :=
  (C5_analyzeTone_sentinels (fun _ => none) _).2.2.2.2.1
    (.jobj [("tone", .jnum 3)]) (.jnum 3) rfl rfl rfl rfl

/-! ## Feedback generator client

Embedding of `generateFeedback` (Agent.tsx lines 335-378).  Unlike
`analyzeTone`, its body is not wrapped in `try/catch`: only the
`JSON.parse(data.feedback)` call sits inside one.  A rejection of
`getToken()`, of `fetch`, or of `res.json()` therefore propagates out of the
function, modelled by `Except.error`. -/

/-- Normalization of the reply's `feedback` field (lines 354-364): a string
is `JSON.parse`d, falling back to `{raw: text}` when the parse throws;
anything else passes through. -/
def normalizeFeedbackField (parse : String → Option JSVal) (fb : JSVal) : JSVal :=
  match fb with
  | .jstr s =>
      match parse s with
      | some parsed => parsed
      | none => .jobj [("raw", .jstr s)]
  | _ => fb

/-- C8: tone and feedback normalization are idempotent on already-structured
input: a structured object passes through unchanged, so applying the
normalizer twice agrees with applying it once. -/
theorem C8_normalize_idempotent (parse : String → Option JSVal) (x : JSVal)
    (h : x.isStructuredObj = true) :
    normalizeToneField parse x = x ∧
    normalizeToneField parse (normalizeToneField parse x) = normalizeToneField parse x ∧
    normalizeFeedbackField parse x = x ∧
    normalizeFeedbackField parse (normalizeFeedbackField parse x) =
      normalizeFeedbackField parse x := by
  cases x <;>
    simp_all [JSVal.isStructuredObj, normalizeToneField, normalizeFeedbackField,
      JSVal.typeofObject]

/-- Witness for C8 at the structured object `{tone: "calm"}`. -/
theorem C8_witness :
    normalizeToneField (fun _ => none) (.jobj [("tone", .jstr "calm")]) =
      .jobj [("tone", .jstr "calm")] ∧
    normalizeToneField (fun _ => none)
        (normalizeToneField (fun _ => none) (.jobj [("tone", .jstr "calm")])) =
      normalizeToneField (fun _ => none) (.jobj [("tone", .jstr "calm")]) ∧
    normalizeFeedbackField (fun _ => none) (.jobj [("tone", .jstr "calm")]) =
      .jobj [("tone", .jstr "calm")] ∧
    normalizeFeedbackField (fun _ => none)
        (normalizeFeedbackField (fun _ => none) (.jobj [("tone", .jstr "calm")])) =
      normalizeFeedbackField (fun _ => none) (.jobj [("tone", .jstr "calm")]) :=
  C8_normalize_idempotent (fun _ => none) (.jobj [("tone", .jstr "calm")]) rfl

/-- One saved transcript turn `{role, content}`. -/
structure SavedMessage where
  role : String
  content : String

/-- Model of JavaScript `String.prototype.slice(0, n)`: the first `n`
characters. -/
def jsSlice (s : String) (n : Nat) : String := String.mk (s.data.take n)

/-- Model of JavaScript `Array.prototype.join(sep)` (empty array joins to ""). -/
def jsJoin (sep : String) : List String → String
  | [] => ""
  | x :: rest => rest.foldl (fun acc y => acc ++ sep ++ y) x

/-- The `"{role}: {content}"` per-utterance rendering, newline-joined, as
built identically at lines 338-340 and 471-473. -/
def renderedTranscript (messages : List SavedMessage) : String :=
  jsJoin "\n" (messages.map fun m => m.role ++ ": " ++ m.content)

def MAX_CHARS : Nat := 8000

/-- The transcript string sent to the feedback endpoint (lines 337-341):
the joined rendering truncated to `MAX_CHARS` characters. -/
def feedbackTranscript (messages : List SavedMessage) : String :=
  jsSlice (renderedTranscript messages) MAX_CHARS

/-- Observable outcome of one `generateFeedback` run: the transcript sent in
the request body, and the feedback values passed to `saveToSupabase`, in
order. -/
structure FeedbackRun where
  sentTranscript : String
  saves : List JSVal

/-- The function `generateFeedback` translated from the source.  `Except.error` marks a
rejection escaping the function (no persistence call happened).  On a `null`
(or `undefined`) success body, the `data.feedback` access throws inside the
try block, and the catch block throws again at `{raw: data.feedback}`, so
the exception propagates with zero persistence calls. -/
def generateFeedback (parse : String → Option JSVal) (messages : List SavedMessage)
    (o : FetchOutcome) : Except Unit FeedbackRun :=
  let transcriptText := feedbackTranscript messages
  match o with
  | .reject => .error ()
  | .resp ok body =>
      if ok then
        match body with
        | none => .error ()
        | some data =>
            match data.getFieldE "feedback" with
            | .error _ => .error ()
            | .ok (.jstr s) =>
                (match parse s with
                 | some parsed => .ok ⟨transcriptText, [parsed]⟩
                 | none => .ok ⟨transcriptText, [.jobj [("raw", .jstr s)]]⟩)
            | .ok fb => .ok ⟨transcriptText, [fb]⟩
      else .ok ⟨transcriptText, [.jobj [("raw", .jstr "Could not generate feedback.")]]⟩

/-- Number of `saveToSupabase` invocations a run performed. -/
def savesCount : Except Unit FeedbackRun → Nat
  | .error _ => 0
  | .ok run => run.saves.length

/-- The TypeError path at a JSON `null` success body: `generateFeedback`
raises and persists nothing. -/
theorem generateFeedback_null_body_raises (parse : String → Option JSVal)
    (messages : List SavedMessage) :
    generateFeedback parse messages (.resp true (some .jnull)) = .error () ∧
    savesCount (generateFeedback parse messages (.resp true (some .jnull))) = 0 :=
  ⟨rfl, rfl⟩

/-- A response was received and, when successful, its body was readable JSON
on which the `data.feedback` access returns (not `null`/`undefined`): the
branches enumerated by the source's `if (res.ok) { try ... catch } else`
that reach a `saveToSupabase` call. -/
def responseArrived : FetchOutcome → Bool
  | .resp true (some data) =>
      (match data.getFieldE "feedback" with
       | .ok _ => true
       | .error _ => false)
  | .resp false _ => true
  | _ => false

/-- The feedback value each branch produces (success-parse, raw fallback,
HTTP-failure sentinel).  The `.error` case of the field access is
unreachable under `responseArrived`. -/
def feedbackValueOf (parse : String → Option JSVal) : FetchOutcome → JSVal
  | .resp true (some data) =>
      (match data.getFieldE "feedback" with
       | .ok (.jstr s) => (parse s).getD (.jobj [("raw", .jstr s)])
       | .ok fb => fb
       | .error _ => .jundefined)
  | _ => .jobj [("raw", .jstr "Could not generate feedback.")]

/-- C4 counterexample: on a transport failure (`fetch`/`getToken` rejects)
the exception escapes `generateFeedback` and `saveToSupabase` is invoked
zero times, not exactly once — refuting the claim that every generation
attempt persists exactly once. -/
theorem C4_counterexample :
    savesCount (generateFeedback (fun _ => none) [] .reject) = 0 := rfl

/-- C4 (amended): whenever a response is received and reaches a persistence
branch — HTTP success with a readable JSON body on which the `data.feedback`
access returns (feedback parseable or not), or HTTP failure — the run
returns normally and invokes `saveToSupabase` exactly once, with exactly the
feedback value that branch produced; on transport failure, an unreadable
success body, or a `null` success body (whose `data.feedback` access throws
in the try and again in the catch) the function instead raises without
persisting. -/
theorem C4_generateFeedback_saves_once (parse : String → Option JSVal)
    (messages : List SavedMessage) (o : FetchOutcome)
    (h : responseArrived o = true) :
    ∃ run : FeedbackRun, generateFeedback parse messages o = .ok run ∧
      run.saves = [feedbackValueOf parse o] := by
  cases o with
  | reject => simp [responseArrived] at h
  | resp ok body =>
      cases ok with
      | false =>
          exact ⟨⟨feedbackTranscript messages,
            [.jobj [("raw", .jstr "Could not generate feedback.")]]⟩, rfl, rfl⟩
      | true =>
          cases body with
          | none => simp [responseArrived] at h
          | some data =>
              cases hfe : data.getFieldE "feedback" with
              | error u => simp [responseArrived, hfe] at h
              | ok fb =>
                  cases fb with
                  | jstr s =>
                      cases hp : parse s with
                      | some parsed =>
                          refine ⟨⟨feedbackTranscript messages, [parsed]⟩, ?_, ?_⟩
                          · simp [generateFeedback, hfe, hp]
                          · simp [feedbackValueOf, hfe, hp]
                      | none =>
                          refine ⟨⟨feedbackTranscript messages,
                            [.jobj [("raw", .jstr s)]]⟩, ?_, ?_⟩
                          · simp [generateFeedback, hfe, hp]
                          · simp [feedbackValueOf, hfe, hp]
                  | jundefined =>
                      exact ⟨⟨feedbackTranscript messages, [.jundefined]⟩,
                        by simp [generateFeedback, hfe], by simp [feedbackValueOf, hfe]⟩
                  | jnull =>
                      exact ⟨⟨feedbackTranscript messages, [.jnull]⟩,
                        by simp [generateFeedback, hfe], by simp [feedbackValueOf, hfe]⟩
                  | jbool b =>
                      exact ⟨⟨feedbackTranscript messages, [.jbool b]⟩,
                        by simp [generateFeedback, hfe], by simp [feedbackValueOf, hfe]⟩
                  | jnum n =>
                      exact ⟨⟨feedbackTranscript messages, [.jnum n]⟩,
                        by simp [generateFeedback, hfe], by simp [feedbackValueOf, hfe]⟩
                  | jobj fields =>
                      exact ⟨⟨feedbackTranscript messages, [.jobj fields]⟩,
                        by simp [generateFeedback, hfe], by simp [feedbackValueOf, hfe]⟩
                  | jarr elems =>
                      exact ⟨⟨feedbackTranscript messages, [.jarr elems]⟩,
                        by simp [generateFeedback, hfe], by simp [feedbackValueOf, hfe]⟩

/-- Witness for C4 (amended) at the HTTP-failure branch. -/
theorem C4_witness :
    ∃ run : FeedbackRun,
      generateFeedback (fun _ => none) [] (.resp false none) = .ok run ∧
      run.saves = [feedbackValueOf (fun _ => none) (.resp false none)] :=
  C4_generateFeedback_saves_once (fun _ => none) [] (.resp false none) rfl

theorem generateFeedback_sentTranscript (parse : String → Option JSVal)
    (messages : List SavedMessage) (o : FetchOutcome) (run : FeedbackRun)
    (h : generateFeedback parse messages o = .ok run) :
    run.sentTranscript = feedbackTranscript messages := by
  cases o with
  | reject => simp [generateFeedback] at h
  | resp ok body =>
      cases ok with
      | false => simp [generateFeedback] at h; subst h; rfl
      | true =>
          cases body with
          | none => simp [generateFeedback] at h
          | some data =>
              cases hfe : data.getFieldE "feedback" with
              | error u => simp [generateFeedback, hfe] at h
              | ok fb =>
                  cases fb with
                  | jstr s =>
                      cases hp : parse s <;> simp [generateFeedback, hfe, hp] at h <;>
                        subst h <;> rfl
                  | jundefined => simp [generateFeedback, hfe] at h; subst h; rfl
                  | jnull => simp [generateFeedback, hfe] at h; subst h; rfl
                  | jbool b => simp [generateFeedback, hfe] at h; subst h; rfl
                  | jnum n => simp [generateFeedback, hfe] at h; subst h; rfl
                  | jobj fields => simp [generateFeedback, hfe] at h; subst h; rfl
                  | jarr elems => simp [generateFeedback, hfe] at h; subst h; rfl

/-- C6: the transcript sent to the feedback endpoint is the per-utterance
`"{role}: {content}"` rendering newline-joined and then truncated — of the
joined string, not per utterance — to at most `MAX_CHARS = 8000` characters:
its length is `min 8000 (length of the joined string)`, a joined string
longer than 8000 characters is sent as exactly its first 8000 characters,
and every run of `generateFeedback` that returns sent exactly this string. -/
theorem C6_transcript_truncation (messages : List SavedMessage) :
    feedbackTranscript messages = jsSlice (renderedTranscript messages) MAX_CHARS ∧
    (feedbackTranscript messages).length =
      min MAX_CHARS (renderedTranscript messages).length ∧
    (MAX_CHARS < (renderedTranscript messages).length →
      (feedbackTranscript messages).length = MAX_CHARS ∧
      (feedbackTranscript messages).data =
        (renderedTranscript messages).data.take MAX_CHARS) ∧
    (∀ parse o run, generateFeedback parse messages o = .ok run →
      run.sentTranscript = feedbackTranscript messages) := by
  have hlen : (feedbackTranscript messages).length =
      min MAX_CHARS (renderedTranscript messages).length := by
    show (String.mk ((renderedTranscript messages).data.take MAX_CHARS)).length = _
    show ((renderedTranscript messages).data.take MAX_CHARS).length = _
    rw [List.length_take]
    rfl
  refine ⟨rfl, hlen, fun hgt => ⟨?_, rfl⟩, fun parse o run h =>
    generateFeedback_sentTranscript parse messages o run h⟩
  rw [hlen]
  omega

/-- Witness for C6: a single 9000-character utterance joins to a 9006-character
transcript, and the string sent is exactly 8000 characters long. -/
theorem C6_witness :
    (feedbackTranscript [⟨"user", String.mk (List.replicate 9000 'a')⟩]).length =
      MAX_CHARS := by
  have h := (C6_transcript_truncation [⟨"user", String.mk (List.replicate 9000 'a')⟩]).2.2.1
  refine (h ?_).1
  show MAX_CHARS < ("user" ++ ": " ++ String.mk (List.replicate 9000 'a')).length
  rw [String.length_append, String.length_append]
  have h1 : ("user").length = 4 := rfl
  have h2 : (": ").length = 2 := rfl
  have h3 : (String.mk (List.replicate 9000 'a')).length = 9000 := by
    show (List.replicate 9000 'a').length = 9000
    rw [List.length_replicate]
  rw [h1, h2, h3]
  norm_num [MAX_CHARS]

/-! ## Client-side persistence (`saveToSupabase`, Agent.tsx lines 464-644)

The whole body sits in `try/catch` (the catch only logs), so the function
never raises.  Its observable behaviour is the list of requests issued to
`/api/save-interview` — empty when the guard at line 588 returns early
(no interview identifier available) or when `getToken()` rejects (swallowed
by the catch). -/

/-- The browser session state read at lines 476-483 and 515-519. -/
structure SessionCtx where
  resumeEmail : Option String
  extractedCandidateName : Option String
  initialInterviewId : Option String

/-- JavaScript `a || b` over nullable strings ("" and `null` are falsy). -/
def jsOrStr (a b : Option String) : Option String :=
  match a with
  | some s => if s ≠ "" then some s else b
  | none => b

/-- Truthiness of a nullable string. -/
def optTruthy : Option String → Bool
  | some s => s != ""
  | none => false

/-- The tone shaping of lines 495-511: a non-array object is projected onto
its four fields (each `|| null`), a string is stored as-is, any other truthy
value is coerced to a string, and a falsy tone stays `null`.  The receiver
of `fieldOrNull` is guarded at its call site to be a truthy non-array
object, so the TypeError case of the access is unreachable there. -/
def fieldOrNull (v : JSVal) (k : String) : JSVal :=
  match v.getFieldE k with
  | .ok f => if jsTruthy f then f else .jnull
  | .error _ => .jnull

/-- Coarse model of the JavaScript `String(x)` coercion reachable at
line 510 (numbers, `true`, arrays). -/
def jsStringOf : JSVal → String
  | .jnum n => toString n
  | .jbool b => cond b "true" "false"
  | _ => ""

def toneDataForStorage (toneResult : JSVal) : JSVal :=
  if jsTruthy toneResult then
    if toneResult.typeofObject && !toneResult.isArr then
      .jobj [("confidence", fieldOrNull toneResult "confidence"),
             ("tone", fieldOrNull toneResult "tone"),
             ("energy", fieldOrNull toneResult "energy"),
             ("summary", fieldOrNull toneResult "summary")]
    else if toneResult.isStr then toneResult
    else .jstr (jsStringOf toneResult)
  else .jnull

/-- The body of a request issued to `/api/save-interview` (the fields the
claims depend on). -/
structure ClientSaveReq where
  transcript : String
  feedback : JSVal
  tone : JSVal
  interviewId : Option String
  email : String

/-- The function `saveToSupabase` translated from the source.  Returns the list of
requests issued to the save endpoint; it returns (never raises) in every
case.  `tokenOk = false` models `getToken()` rejecting, which the
surrounding catch swallows after the request was skipped. -/
def saveToSupabase (messages : List SavedMessage) (feedback toneResult : JSVal)
    (ctx : SessionCtx) (propInterviewId : Option String) (tokenOk : Bool) :
    List ClientSaveReq :=
  let transcriptText := renderedTranscript messages
  let interviewId := jsOrStr ctx.initialInterviewId propInterviewId
  if !optTruthy interviewId then []
  else if !tokenOk then []
  else [{ transcript := transcriptText, feedback := feedback,
          tone := toneDataForStorage toneResult,
          interviewId := interviewId,
          email := ctx.resumeEmail.getD "" }]

/-- C9: when no interview identifier is available at persistence time
(neither a stored `initialInterviewId` nor a caller-supplied one — both
absent or empty), `saveToSupabase` returns without issuing any request to
the save endpoint: the session's transcript, feedback and tone are silently
not persisted.  The function returns normally (the embedding is total) —
no exception is raised. -/
theorem C9_saveToSupabase_silent_skip (messages : List SavedMessage)
    (feedback toneResult : JSVal) (ctx : SessionCtx)
    (propInterviewId : Option String) (tokenOk : Bool)
    (h1 : ctx.initialInterviewId = none ∨ ctx.initialInterviewId = some "")
    (h2 : propInterviewId = none ∨ propInterviewId = some "") :
    saveToSupabase messages feedback toneResult ctx propInterviewId tokenOk = [] := by
  have hid : jsOrStr ctx.initialInterviewId propInterviewId = none ∨
      jsOrStr ctx.initialInterviewId propInterviewId = some "" := by
    rcases h1 with h1 | h1 <;> rcases h2 with h2 | h2 <;>
      simp [jsOrStr, h1, h2]
  rcases hid with hid | hid <;> simp [saveToSupabase, hid, optTruthy]

/-- Witness for C9 at a fully concrete call with no identifier anywhere. -/
theorem C9_witness :
    saveToSupabase [⟨"user", "hi"⟩] (.jobj []) (.jstr "calm")
      ⟨some "x@y.z", none, none⟩ none true = [] :=
  C9_saveToSupabase_silent_skip [⟨"user", "hi"⟩] (.jobj []) (.jstr "calm")
    ⟨some "x@y.z", none, none⟩ none true (Or.inl rfl) (Or.inl rfl)

/-! ## The save-interview endpoint (`POST`, Agent.tsx lines 1132-1622)

The handler is modelled as an explicit store-transforming function, starting
after the authentication and rate-limiting middleware (line 1149).  The
remote Supabase table is a list of records; each of the handler's outbound
HTTP calls (storage upload, the four search GETs, skill extraction, the
final PATCH/POST) either reads the store deterministically or is resolved by
an oracle flag giving the call's outcome (`ok` status or not).  A search
fetch that rejects is observationally covered by the same flags, since the
enclosing `try/catch` only logs and leaves the resolution state unchanged. -/

/-- A row of the `interviews` table (the columns this handler touches). -/
structure DbRec where
  id : String
  userId : JSVal
  candidateName : JSVal
  duration : JSVal
  language : JSVal
  transcript : JSVal
  feedback : JSVal
  tone : JSVal
  email : String
  isConducted : String
  cvResume : Option String
  skills : Option String
  createdAt : Nat

/-- The parsed request body (line 1149-1162) plus the authenticated user's
email (line 1165). -/
structure SaveReq where
  transcript : JSVal
  feedback : JSVal
  candidateName : JSVal
  duration : JSVal
  tone : JSVal
  language : JSVal
  userId : JSVal
  interviewId : Option String
  resumeFile : Option String
  resumeText : Option String
  email : String

/-- A row as materialized from a search response: the primary searches
SELECT `id,"CV/Resume",skills,is_conducted`; the final fallback SELECTs
`id` only, leaving the other properties `undefined`. -/
inductive Fetched where
  | full (id : String) (cvResume : Option String) (skills : Option String)
      (isConducted : String)
  | idOnly (id : String)

/-- Outcomes of the handler's outbound calls. -/
structure Oracle where
  uploadResult : Option String  -- generated storage path on success; none = upload threw
  idSearchOk : Bool             -- the GET by id completed with ok status
  emailSearchOk : Bool
  fallbackOk : Bool
  finalOk : Bool
  skillsResult : Option String  -- extractSkillsFromResume (never throws; none = null)
  writeOk : Bool                -- the final PATCH/POST completed with ok status
  now : Nat                     -- created_at assigned by the store on insert
  genId : String                -- id generated by the store when the insert has none

/-- The handler's externally visible actions, in program order. -/
inductive Effect where
  | testQuery
  | upload
  | searchById (id : String)
  | searchByEmail (email : String) (excludeId : Option String)
  | searchFallback (id : String)
  | searchFinal (id : String)
  | extractSkills
  | write (isPatch : Bool) (target : Option String)

/-- Model of `JSON.stringify(supabaseData)`: an `Option (Option _)` field is a key
that may be absent entirely (`none`, a JS `undefined` dropped by stringify)
or present with a possibly-null value (`some v`). -/
structure Payload where
  id : Option String
  userId : JSVal
  candidateName : JSVal
  duration : JSVal
  language : JSVal
  transcript : JSVal
  feedback : JSVal
  tone : JSVal
  email : String
  isConducted : String
  cvResume : Option (Option String)
  skills : Option (Option String)

/-- Point lookup `?id=eq.{rid}` (`records[0]` of the response). -/
def findById (store : List DbRec) (rid : String) : Option DbRec :=
  store.find? (fun r => r.id == rid)

/-- The ordering `order=created_at.desc&limit=1` over a filtered result. -/
def mostRecent : List DbRec → Option DbRec
  | [] => none
  | r :: rest => some (rest.foldl (fun a b => if b.createdAt > a.createdAt then b else a) r)

/-- The row filter `Email=eq.{e}` with an optional `id=neq.{x}` clause. -/
def emailPred (e : String) (excl : Option String) (r : DbRec) : Bool :=
  r.email == e && (match excl with | some x => !(r.id == x) | none => true)

/-- Filtered lookup `?Email=eq.{e}&id=neq.{x}&order=created_at.desc&limit=1`. -/
def findByEmail (store : List DbRec) (e : String) (excl : Option String) : Option DbRec :=
  mostRecent (store.filter (emailPred e excl))

/-- The UUID shape test of lines 1193 and 1540
(`/^[0-9a-f]{8}-[0-9a-f]{4}-[0-9a-f]{4}-[0-9a-f]{4}-[0-9a-f]{12}$/i`). -/
def isHexDigit (c : Char) : Bool :=
  ('0' ≤ c && c ≤ '9') || ('a' ≤ c && c ≤ 'f') || ('A' ≤ c && c ≤ 'F')

def isUUID (s : String) : Bool :=
  s.data.length == 36 &&
    s.data.enum.all (fun ic =>
      if ic.1 == 8 || ic.1 == 13 || ic.1 == 18 || ic.1 == 23 then ic.2 == '-'
      else isHexDigit ic.2)

/-- Resume upload (lines 1204-1256): attempted only when a file was sent;
every validation or storage error is caught, leaving the path `null`. -/
def uploadResume (req : SaveReq) (o : Oracle) : Option String × List Effect :=
  match req.resumeFile with
  | some content => if content ≠ "" then (o.uploadResult, [.upload]) else (none, [])
  | none => (none, [])

/-- Result of the record-resolution phase. -/
structure Resolution where
  record : Option Fetched
  recId : Option String
  effects : List Effect

/-- Lines 1270-1432: the test query, the search by primary identifier, the
fallback search by candidate email (excluding the primary identifier), and
the final fallback search by identifier, each attempted only while nothing
has been resolved, each tolerating a failed response. -/
def resolveExisting (req : SaveReq) (o : Oracle) (store : List DbRec) : Resolution :=
  let idTruthy := optTruthy req.interviewId
  let rid := req.interviewId.getD ""
  let step1 : Resolution :=
    if req.email ≠ "" then
      let afterId : Resolution :=
        if idTruthy then
          if o.idSearchOk then
            match findById store rid with
            | some r => ⟨some (.full r.id r.cvResume r.skills r.isConducted), some r.id,
                [.testQuery, .searchById rid]⟩
            | none => ⟨none, none, [.testQuery, .searchById rid]⟩
          else ⟨none, none, [.testQuery, .searchById rid]⟩
        else ⟨none, none, [.testQuery]⟩
      if afterId.record.isNone || afterId.recId.isNone then
        let excl := if idTruthy then req.interviewId else none
        let effs := afterId.effects ++ [.searchByEmail req.email excl]
        if o.emailSearchOk then
          match findByEmail store req.email excl with
          | some r => ⟨some (.full r.id r.cvResume r.skills r.isConducted), some r.id, effs⟩
          | none => ⟨afterId.record, afterId.recId, effs⟩
        else ⟨afterId.record, afterId.recId, effs⟩
      else afterId
    else ⟨none, none, []⟩
  if step1.record.isNone && step1.recId.isNone && idTruthy then
    let effs := step1.effects ++ [.searchFallback rid]
    if o.fallbackOk then
      match findById store rid with
      | some r => ⟨some (.idOnly r.id), some r.id, effs⟩
      | none => ⟨none, none, effs⟩
    else ⟨none, none, effs⟩
  else step1

/-- Lines 1439-1502: assemble `supabaseData`.  When a record was resolved,
its stored `CV/Resume` and `skills` are copied into the payload (absent
entirely when the resolving search selected only `id`); otherwise the
creation branch builds the public resume URL and extracts skills from the
resume text (a falsy result leaves the key absent). -/
def buildPayload (req : SaveReq) (o : Oracle) (resumeFilePath : Option String)
    (appUrl : String) (res : Resolution) : Payload × List Effect :=
  let base : Payload :=
    { id := if res.recId.isSome then none else req.interviewId,
      userId := req.userId, candidateName := req.candidateName,
      duration := req.duration,
      language := if jsTruthy req.language then req.language else .jstr "en",
      transcript := req.transcript, feedback := req.feedback, tone := req.tone,
      email := req.email, isConducted := "true",
      cvResume := none, skills := none }
  match res.record with
  | some (.full _ cv sk _) => ({ base with cvResume := some cv, skills := some sk }, [])
  | some (.idOnly _) => (base, [])
  | none =>
      let baseUrl := if appUrl.endsWith "/" then appUrl.dropRight 1 else appUrl
      let cv := resumeFilePath.map (fun path => baseUrl ++ "/api/cv-preview?file=" ++ path)
      let skillsRun : Option (Option String) × List Effect :=
        if optTruthy req.resumeText then
          ((match o.skillsResult with
            | some sk => if sk ≠ "" then some (some sk) else none
            | none => none), [.extractSkills])
        else (none, [])
      ({ base with cvResume := some cv, skills := skillsRun.1 }, skillsRun.2)

/-- Lines 1538-1567: when the primary identifier is a well-formed UUID but
nothing was resolved, search once more by identifier and, on a hit, force
update mode (note: the payload built above is left as it is). -/
def finalSafetyCheck (req : SaveReq) (o : Oracle) (store : List DbRec)
    (exId : Option String) : Option String × List Effect :=
  match req.interviewId with
  | some rid =>
      if rid ≠ "" && isUUID rid && exId.isNone then
        if o.finalOk then
          match findById store rid with
          | some r => (some r.id, [.searchFinal rid])
          | none => (exId, [.searchFinal rid])
        else (exId, [.searchFinal rid])
      else (exId, [])
  | none => (exId, [])

/-- PostgREST `PATCH ?id=eq.{target}`: every key present in the payload
overwrites the column; absent keys leave the column unchanged. -/
def applyPatch (p : Payload) (r : DbRec) : DbRec :=
  { id := p.id.getD r.id,
    userId := p.userId, candidateName := p.candidateName, duration := p.duration,
    language := p.language, transcript := p.transcript, feedback := p.feedback,
    tone := p.tone, email := p.email, isConducted := p.isConducted,
    cvResume := p.cvResume.getD r.cvResume,
    skills := p.skills.getD r.skills,
    createdAt := r.createdAt }

/-- PostgREST `POST`: insert a row from the payload (missing id or columns
fall back to store defaults). -/
def insertRec (p : Payload) (o : Oracle) : DbRec :=
  { id := p.id.getD o.genId,
    userId := p.userId, candidateName := p.candidateName, duration := p.duration,
    language := p.language, transcript := p.transcript, feedback := p.feedback,
    tone := p.tone, email := p.email, isConducted := p.isConducted,
    cvResume := p.cvResume.getD none,
    skills := p.skills.getD none,
    createdAt := o.now }

inductive SaveResponse where
  | badRequest   -- 400, transcript validation (lines 1172-1177)
  | okSaved      -- 200 {success: true}
  | storeError   -- 500, the store rejected the write

structure SaveResult where
  store : List DbRec
  response : SaveResponse
  effects : List Effect
  payload : Option Payload      -- body of the write, when one was issued
  patchTarget : Option String   -- some id = PATCH ?id=eq.{id}; none = POST insert

/-- The transcript validation condition of lines 1172-1177:
`transcript && (typeof transcript !== 'string' || transcript.length > 100000)`. -/
def badTranscript (t : JSVal) : Prop :=
  jsTruthy t = true ∧ (t.isStr = false ∨ 100000 < t.strLength)

instance (t : JSVal) : Decidable (badTranscript t) := by
  unfold badTranscript
  infer_instance

/-- The POST handler, translated from lines 1149-1622. -/
def savePOST (req : SaveReq) (o : Oracle) (appUrl : String)
    (store : List DbRec) : SaveResult :=
  if badTranscript req.transcript then
    { store := store, response := .badRequest, effects := [],
      payload := none, patchTarget := none }
  else
    let up := uploadResume req o
    let res := resolveExisting req o store
    let pb := buildPayload req o up.1 appUrl res
    let fin := finalSafetyCheck req o store res.recId
    let effs := up.2 ++ res.effects ++ pb.2 ++ fin.2 ++ [.write fin.1.isSome fin.1]
    if o.writeOk then
      { store :=
          match fin.1 with
          | some tid => store.map (fun r => if r.id == tid then applyPatch pb.1 r else r)
          | none => store ++ [insertRec pb.1 o],
        response := .okSaved, effects := effs,
        payload := some pb.1, patchTarget := fin.1 }
    else
      { store := store, response := .storeError, effects := effs,
        payload := some pb.1, patchTarget := fin.1 }

/-- C10: a request whose transcript field is truthy and either not a string
or longer than 100000 characters is answered 400 before any record lookup,
resume upload, skill extraction, or store write (no effects at all), with
the store unchanged. -/
theorem C10_transcript_validation (req : SaveReq) (o : Oracle) (appUrl : String)
    (store : List DbRec)
    (h1 : jsTruthy req.transcript = true)
    (h2 : req.transcript.isStr = false ∨ 100000 < req.transcript.strLength) :
    savePOST req o appUrl store =
      { store := store, response := .badRequest, effects := [],
        payload := none, patchTarget := none } := by
  unfold savePOST
  rw [if_pos ⟨h1, h2⟩]

/-- Witness for C10: a numeric (non-string) transcript is rejected. -/
theorem C10_witness :
    savePOST
      { transcript := .jnum 1, feedback := .jnull, candidateName := .jnull,
        duration := .jnull, tone := .jnull, language := .jnull, userId := .jnull,
        interviewId := none, resumeFile := none, resumeText := none, email := "" }
      { uploadResult := none, idSearchOk := true, emailSearchOk := true,
        fallbackOk := true, finalOk := true, skillsResult := none,
        writeOk := true, now := 0, genId := "g" }
      "https://app" [] =
      { store := [], response := .badRequest, effects := [],
        payload := none, patchTarget := none } :=
  C10_transcript_validation _ _ _ _ rfl (Or.inl rfl)

/-! ### The forced-update inconsistency path (claims C2 and C7)

When the primary identifier is a well-formed UUID of an existing record but
both the search by identifier and the fallback search fail transiently (a
non-ok response, lines 1336/1386) while the email search legitimately finds
nothing (it excludes the very identifier under `id=neq.`), the handler
builds the payload in its creation branch — fresh `CV/Resume` (possibly
`null`) and freshly extracted skills, `id` still included — and only then
the final safety check (lines 1538-1567) resolves the record and forces a
`PATCH`.  That `PATCH` overwrites the stored resume reference and skills and
re-supplies `id` in the payload, contradicting the preservation comments at
lines 1258-1261, 1452 and 1469-1470. -/

def uuidA : String := "aaaaaaaa-aaaa-aaaa-aaaa-aaaaaaaaaaaa"

/-- The pre-existing record: resume reference and skills were set at the
initial upload. -/
def storedRec : DbRec :=
  { id := uuidA, userId := .jnull, candidateName := .jnull, duration := .jnull,
    language := .jnull, transcript := .jnull, feedback := .jnull, tone := .jnull,
    email := "x@y.z", isConducted := "false",
    cvResume := some "https://app/api/cv-preview?file=old.pdf",
    skills := some "python,sql", createdAt := 5 }

/-- The completion request for the same candidate and the same identifier. -/
def conflictReq : SaveReq :=
  { transcript := .jstr "user: hi", feedback := .jobj [], candidateName := .jstr "X",
    duration := .jstr "1m 0s", tone := .jstr "calm", language := .jstr "en",
    userId := .jstr "u1", interviewId := some uuidA, resumeFile := none,
    resumeText := some "resume body", email := "x@y.z" }

/-- Transient failures on the first and the fallback search; the final
safety-check search succeeds. -/
def conflictOracle : Oracle :=
  { uploadResult := none, idSearchOk := false, emailSearchOk := true,
    fallbackOk := false, finalOk := true, skillsResult := some "go",
    writeOk := true, now := 9, genId := "gen" }

/-- C2 (code bug): on the forced-update path the `PATCH` addressed at the
resolved record does NOT carry forward the stored resume reference and
skills — after the update the record holds the freshly derived values
(`CV/Resume` reset to null, skills replaced by the new extraction), although
it previously held `"python,sql"` and a resume URL. -/
theorem C2_code_bug_update_overwrites :
    (savePOST conflictReq conflictOracle "https://app" [storedRec]).patchTarget =
      some uuidA ∧
    ((savePOST conflictReq conflictOracle "https://app" [storedRec]).store.map
      (fun r => (r.id, r.cvResume, r.skills))) = [(uuidA, none, some "go")] ∧
    storedRec.cvResume = some "https://app/api/cv-preview?file=old.pdf" ∧
    storedRec.skills = some "python,sql" :=
  ⟨rfl, rfl, rfl, rfl⟩

/-- C7 (code bug): on the same forced-update path the `PATCH` is correctly
addressed by the resolved record's identifier, but the request payload still
contains the `id` field (the deletion at line 1453 ran before the final
safety check resolved the record). -/
theorem C7_code_bug_payload_contains_id :
    (savePOST conflictReq conflictOracle "https://app" [storedRec]).patchTarget =
      some uuidA ∧
    ((savePOST conflictReq conflictOracle "https://app" [storedRec]).payload.map
      (fun p => p.id)) = some (some uuidA) :=
  ⟨rfl, rfl⟩

/-! ### Create-versus-update selection (claim C3) -/

theorem list_map_id_of_mem {α : Type} (f : α → α) (l : List α)
    (h : ∀ a ∈ l, f a = a) : l.map f = l := by
  induction l with
  | nil => rfl
  | cons x xs ih =>
      rw [List.map_cons, h x (by simp), ih (fun a ha => h a (by simp [ha]))]

theorem findById_eq_none {store : List DbRec} {rid : String}
    (h : ∀ r ∈ store, r.id ≠ rid) : findById store rid = none := by
  rw [findById, List.find?_eq_none]
  intro r hr
  simp [h r hr]

theorem findByEmail_eq_none {store : List DbRec} {e : String} {excl : Option String}
    (h : ∀ r ∈ store, r.email ≠ e) : findByEmail store e excl = none := by
  rw [findByEmail, List.filter_eq_nil_iff.mpr (fun r hr => by simp [emailPred, h r hr])]
  rfl

theorem findByEmail_append_single {s : List DbRec} {n : DbRec} {e x : String}
    (hs : ∀ r ∈ s, r.email ≠ e) (hn : n.email = e) (hx : n.id ≠ x) :
    findByEmail (s ++ [n]) e (some x) = some n := by
  rw [findByEmail, List.filter_append,
    List.filter_eq_nil_iff.mpr (fun r hr => by simp [emailPred, hs r hr])]
  have hone : [n].filter (emailPred e (some x)) = [n] := by
    simp [emailPred, hn, hx]
  rw [hone]
  rfl

/-- Resolution finds nothing when the store holds no record with the
request's identifier or email and all the searches complete. -/
theorem resolveExisting_create {req : SaveReq} {o : Oracle} {s : List DbRec}
    {rid : String}
    (he : req.email ≠ "") (hrid : req.interviewId = some rid) (hr : rid ≠ "")
    (hid : ∀ r ∈ s, r.id ≠ rid) (hem : ∀ r ∈ s, r.email ≠ req.email)
    (hok1 : o.idSearchOk = true) (hok2 : o.emailSearchOk = true)
    (hok3 : o.fallbackOk = true) :
    (resolveExisting req o s).record = none ∧ (resolveExisting req o s).recId = none := by
  have hb : (rid != "") = true := by simp [hr]
  have hfid : findById s rid = none := findById_eq_none hid
  have hfem : findByEmail s req.email (some rid) = none := findByEmail_eq_none hem
  constructor <;>
    simp [resolveExisting, hrid, optTruthy, hb, he, hok1, hok2, hok3, hfid, hfem]

/-- Resolution finds the single matching-email record via the email fallback
when the identifier search legitimately finds nothing. -/
theorem resolveExisting_update {req : SaveReq} {o : Oracle} {s : List DbRec}
    {n : DbRec} {rid2 : String}
    (he : req.email ≠ "") (hrid : req.interviewId = some rid2) (hr : rid2 ≠ "")
    (hid : ∀ r ∈ s, r.id ≠ rid2) (hnid : n.id ≠ rid2)
    (hem : ∀ r ∈ s, r.email ≠ req.email) (hne : n.email = req.email)
    (hok1 : o.idSearchOk = true) (hok2 : o.emailSearchOk = true) :
    (resolveExisting req o (s ++ [n])).record =
      some (.full n.id n.cvResume n.skills n.isConducted) ∧
    (resolveExisting req o (s ++ [n])).recId = some n.id := by
  have hb : (rid2 != "") = true := by simp [hr]
  have hfid : findById (s ++ [n]) rid2 = none := by
    refine findById_eq_none ?_
    intro r hr'
    rcases List.mem_append.mp hr' with h | h
    · exact hid r h
    · rw [List.mem_singleton.mp h]; exact hnid
  have hfem : findByEmail (s ++ [n]) req.email (some rid2) = some n :=
    findByEmail_append_single hem hne hnid
  constructor <;>
    simp [resolveExisting, hrid, optTruthy, hb, he, hok1, hok2, hfid, hfem]

theorem finalSafetyCheck_none {req : SaveReq} {o : Oracle} {s : List DbRec}
    {rid : String} (hrid : req.interviewId = some rid)
    (hid : ∀ r ∈ s, r.id ≠ rid) :
    (finalSafetyCheck req o s none).1 = none := by
  have hfid : findById s rid = none := findById_eq_none hid
  unfold finalSafetyCheck
  rw [hrid]
  dsimp only
  split
  · cases hf : o.finalOk <;> simp [hf, hfid]
  · rfl

theorem finalSafetyCheck_some (req : SaveReq) (o : Oracle) (s : List DbRec)
    (x : String) : (finalSafetyCheck req o s (some x)).1 = some x := by
  unfold finalSafetyCheck
  cases hrid : req.interviewId with
  | none => rfl
  | some rid => simp

/-- The payload's `id` and email fields, independently of the skills and
resume branches. -/
theorem buildPayload_id_email (req : SaveReq) (o : Oracle) (fp : Option String)
    (u : String) (res : Resolution) :
    (buildPayload req o fp u res).1.id =
      (if res.recId.isSome then none else req.interviewId) ∧
    (buildPayload req o fp u res).1.email = req.email := by
  rcases res with ⟨rec, recId, effs⟩
  cases rec with
  | none => exact ⟨rfl, rfl⟩
  | some f => cases f with
    | full a b c d => exact ⟨rfl, rfl⟩
    | idOnly a => exact ⟨rfl, rfl⟩

/-- C3: for a candidate identity `e` with no record in the store, a
completed save-interview call creates exactly one new record (a `POST`
insert, `patchTarget = none`, the store grows by exactly that record,
carrying the call's identifier `rid1` and email `e`); a second call with the
same identity but a different identifier `rid2` resolves the first record
via the most-recent-by-email fallback search and updates it
(`patchTarget = some rid1`) instead of inserting, so afterwards the store
still has exactly one record with identity `e` (and the same total size as
after the first call).  Hypotheses: both identifiers are non-empty and
distinct, unused by any pre-existing record, and the searches and writes of
both calls complete successfully. -/
theorem C3_create_then_update_no_duplicate
    (s : List DbRec) (e rid1 rid2 : String) (req1 req2 : SaveReq)
    (o1 o2 : Oracle) (u1 u2 : String)
    (he : e ≠ "") (hr1 : rid1 ≠ "") (hr2 : rid2 ≠ "") (h12 : rid1 ≠ rid2)
    (hs : ∀ r ∈ s, r.email ≠ e ∧ r.id ≠ rid1 ∧ r.id ≠ rid2)
    (hq1e : req1.email = e) (hq1i : req1.interviewId = some rid1)
    (hq1t : ¬ badTranscript req1.transcript)
    (hq2e : req2.email = e) (hq2i : req2.interviewId = some rid2)
    (hq2t : ¬ badTranscript req2.transcript)
    (ho1 : o1.idSearchOk = true ∧ o1.emailSearchOk = true ∧ o1.fallbackOk = true ∧
      o1.writeOk = true)
    (ho2 : o2.idSearchOk = true ∧ o2.emailSearchOk = true ∧ o2.writeOk = true) :
    (savePOST req1 o1 u1 s).patchTarget = none ∧
    (∃ n : DbRec, n.id = rid1 ∧ n.email = e ∧
      (savePOST req1 o1 u1 s).store = s ++ [n]) ∧
    (savePOST req2 o2 u2 ((savePOST req1 o1 u1 s).store)).patchTarget = some rid1 ∧
    (savePOST req2 o2 u2 ((savePOST req1 o1 u1 s).store)).store.length = s.length + 1 ∧
    (savePOST req2 o2 u2 ((savePOST req1 o1 u1 s).store)).store.countP
      (fun r => r.email == e) = 1 := by
  obtain ⟨ho1a, ho1b, ho1c, ho1w⟩ := ho1
  obtain ⟨ho2a, ho2b, ho2w⟩ := ho2
  have hsId1 : ∀ r ∈ s, r.id ≠ rid1 := fun r hr => (hs r hr).2.1
  have hsId2 : ∀ r ∈ s, r.id ≠ rid2 := fun r hr => (hs r hr).2.2
  have hsEm1 : ∀ r ∈ s, r.email ≠ req1.email := fun r hr => by
    rw [hq1e]; exact (hs r hr).1
  have hsEm2 : ∀ r ∈ s, r.email ≠ req2.email := fun r hr => by
    rw [hq2e]; exact (hs r hr).1
  -- first call: nothing resolves, the write is an insert
  have hres1 := @resolveExisting_create req1 o1 s rid1
    (by rw [hq1e]; exact he) hq1i hr1 hsId1 hsEm1 ho1a ho1b ho1c
  have hfin1 : (finalSafetyCheck req1 o1 s (resolveExisting req1 o1 s).recId).1 = none := by
    rw [hres1.2]; exact finalSafetyCheck_none hq1i hsId1
  have hpt1 : (savePOST req1 o1 u1 s).patchTarget = none := by
    unfold savePOST
    rw [if_neg hq1t]
    dsimp only
    simp [hfin1, ho1w]
  have hst1 : (savePOST req1 o1 u1 s).store = s ++
      [insertRec (buildPayload req1 o1 (uploadResume req1 o1).1 u1
        (resolveExisting req1 o1 s)).1 o1] := by
    unfold savePOST
    rw [if_neg hq1t]
    dsimp only
    simp [hfin1, ho1w]
  have hnid : (insertRec (buildPayload req1 o1 (uploadResume req1 o1).1 u1
      (resolveExisting req1 o1 s)).1 o1).id = rid1 := by
    show ((buildPayload req1 o1 (uploadResume req1 o1).1 u1
      (resolveExisting req1 o1 s)).1.id).getD o1.genId = rid1
    rw [(buildPayload_id_email req1 o1 (uploadResume req1 o1).1 u1
      (resolveExisting req1 o1 s)).1, hres1.2]
    simp [hq1i]
  have hnem : (insertRec (buildPayload req1 o1 (uploadResume req1 o1).1 u1
      (resolveExisting req1 o1 s)).1 o1).email = e := by
    show (buildPayload req1 o1 (uploadResume req1 o1).1 u1
      (resolveExisting req1 o1 s)).1.email = e
    rw [(buildPayload_id_email req1 o1 (uploadResume req1 o1).1 u1
      (resolveExisting req1 o1 s)).2, hq1e]
  -- abbreviate the inserted record
  generalize hngen : insertRec (buildPayload req1 o1 (uploadResume req1 o1).1 u1
      (resolveExisting req1 o1 s)).1 o1 = n at hst1 hnid hnem
  -- second call: the email fallback resolves `n`, the write is a PATCH at `n.id`
  have hres2 := @resolveExisting_update req2 o2 s n rid2
    (by rw [hq2e]; exact he) hq2i hr2 hsId2
    (by rw [hnid]; exact h12) hsEm2 (by rw [hnem, hq2e]) ho2a ho2b
  have hfin2 : (finalSafetyCheck req2 o2 (s ++ [n])
      (resolveExisting req2 o2 (s ++ [n])).recId).1 = some n.id := by
    rw [hres2.2]; exact finalSafetyCheck_some _ _ _ _
  have hpt2 : (savePOST req2 o2 u2 (s ++ [n])).patchTarget = some rid1 := by
    unfold savePOST
    rw [if_neg hq2t]
    dsimp only
    simp [hfin2, ho2w, hnid]
  have hst2 : (savePOST req2 o2 u2 (s ++ [n])).store = (s ++ [n]).map
      (fun r => if r.id == n.id then
        applyPatch (buildPayload req2 o2 (uploadResume req2 o2).1 u2
          (resolveExisting req2 o2 (s ++ [n]))).1 r else r) := by
    unfold savePOST
    rw [if_neg hq2t]
    dsimp only
    simp [hfin2, ho2w]
  have hmap : (s ++ [n]).map
      (fun r => if r.id == n.id then
        applyPatch (buildPayload req2 o2 (uploadResume req2 o2).1 u2
          (resolveExisting req2 o2 (s ++ [n]))).1 r else r) =
      s ++ [applyPatch (buildPayload req2 o2 (uploadResume req2 o2).1 u2
        (resolveExisting req2 o2 (s ++ [n]))).1 n] := by
    rw [List.map_append]
    congr 1
    · apply list_map_id_of_mem
      intro r hr
      have hre : (r.id == n.id) = false := by
        rw [hnid]
        simp [hsId1 r hr]
      simp [hre]
    · simp
  have hpem : (applyPatch (buildPayload req2 o2 (uploadResume req2 o2).1 u2
      (resolveExisting req2 o2 (s ++ [n]))).1 n).email = e := by
    show (buildPayload req2 o2 (uploadResume req2 o2).1 u2
      (resolveExisting req2 o2 (s ++ [n]))).1.email = e
    rw [(buildPayload_id_email req2 o2 (uploadResume req2 o2).1 u2
      (resolveExisting req2 o2 (s ++ [n]))).2, hq2e]
  refine ⟨hpt1, ⟨n, hnid, hnem, hst1⟩, ?_, ?_, ?_⟩
  · rw [hst1]; exact hpt2
  · rw [hst1, hst2, hmap]
    simp
  · rw [hst1, hst2, hmap, List.countP_append]
    have h0 : s.countP (fun r => r.email == e) = 0 :=
      List.countP_eq_zero.mpr (fun r hr => by simp [(hs r hr).1])
    rw [h0]
    simp [hpem]

/-- First completion for the witness scenario: identifier `id-1`. -/
def firstReq : SaveReq :=
  { transcript := .jstr "user: hi", feedback := .jobj [], candidateName := .jnull,
    duration := .jnull, tone := .jnull, language := .jnull, userId := .jnull,
    interviewId := some "id-1", resumeFile := none, resumeText := none,
    email := "x@y.z" }

/-- Second completion for the witness scenario: same candidate email,
different identifier `id-2`. -/
def secondReq : SaveReq :=
  { transcript := .jstr "user: hi", feedback := .jobj [], candidateName := .jnull,
    duration := .jnull, tone := .jnull, language := .jnull, userId := .jnull,
    interviewId := some "id-2", resumeFile := none, resumeText := none,
    email := "x@y.z" }

/-- All outbound calls succeed. -/
def allOkOracle : Oracle :=
  { uploadResult := none, idSearchOk := true, emailSearchOk := true,
    fallbackOk := true, finalOk := true, skillsResult := none,
    writeOk := true, now := 1, genId := "g" }

/-- Witness for C3 on an initially empty store. -/
theorem C3_witness :
    (savePOST firstReq allOkOracle "u" []).patchTarget = none ∧
    (∃ n : DbRec, n.id = "id-1" ∧ n.email = "x@y.z" ∧
      (savePOST firstReq allOkOracle "u" []).store = [] ++ [n]) ∧
    (savePOST secondReq allOkOracle "u"
      ((savePOST firstReq allOkOracle "u" []).store)).patchTarget = some "id-1" ∧
    (savePOST secondReq allOkOracle "u"
      ((savePOST firstReq allOkOracle "u" []).store)).store.length =
      ([] : List DbRec).length + 1 ∧
    (savePOST secondReq allOkOracle "u"
      ((savePOST firstReq allOkOracle "u" []).store)).store.countP
      (fun r => r.email == "x@y.z") = 1 :=
  C3_create_then_update_no_duplicate [] "x@y.z" "id-1" "id-2" firstReq secondReq
    allOkOracle allOkOracle "u" "u"
    (by decide) (by decide) (by decide) (by decide)
    (by intro r hr; simp at hr)
    rfl rfl (by decide) rfl rfl (by decide)
    ⟨rfl, rfl, rfl, rfl⟩ ⟨rfl, rfl, rfl⟩

end TrueChance
